import Mathlib

/-!
Verification of the geographic alert registry (src/main.py) against its
specification. The persistence layer is modelled as an in-memory list of
records kept in insertion order together with the next auto-increment id.
Floating-point coordinates are modelled as rationals; SQL's
`ORDER BY timestamp DESC` is modelled as a stable descending sort by
timestamp (ties keep insertion/id order), matching the spec's contract for
the persistence collaborator.
-/

/-- Embeds the persisted row `AlertDB` / response model `Alert` of main.py. -/
structure AlertRecord where
  id : Nat
  title : String
  description : String
  category : String
  latitude : ℚ
  longitude : ℚ
  bairro : String
  timestamp : Nat
deriving DecidableEq, Repr

/-- Embeds the request model `AlertCreate` of main.py (fields before validation). -/
structure AlertCreate where
  title : String
  description : String
  category : String
  latitude : ℚ
  longitude : ℚ
  bairro : String
deriving DecidableEq, Repr

/-- Error outcomes surfaced by the endpoints: pydantic validation failure
(HTTP 422) and missing id (HTTP 404). -/
inductive ApiError where
  | validationError
  | notFound
deriving DecidableEq, Repr

/-- The persisted state: rows in insertion order plus the auto-increment counter. -/
structure Database where
  rows : List AlertRecord
  nextId : Nat
deriving DecidableEq, Repr

/-- Embeds the pydantic `Field` constraints on `AlertCreate` (main.py lines 57-63):
title 1..255 chars, description at most 1000, category at most 100,
latitude in [-90, 90], longitude in [-180, 180]. -/
def validAlertCreate (a : AlertCreate) : Bool :=
  decide (1 ≤ a.title.length) && decide (a.title.length ≤ 255) &&
  decide (a.description.length ≤ 1000) &&
  decide (a.category.length ≤ 100) &&
  decide (-90 ≤ a.latitude) && decide (a.latitude ≤ 90) &&
  decide (-180 ≤ a.longitude) && decide (a.longitude ≤ 180)

/-- One step of the stable descending-by-timestamp sort: insert `a` before the
first element whose timestamp is at most `a`'s, so that elements earlier in the
original list stay first among equal timestamps. -/
def insertTS (a : AlertRecord) : List AlertRecord → List AlertRecord
  | [] => [a]
  | b :: bs => if a.timestamp < b.timestamp then b :: insertTS a bs else a :: b :: bs

/-- Embeds `order_by(AlertDB.timestamp.desc())` as a stable sort.
Modelled from the spec for the tie order: the spec fixes ties to
insertion/id order (stable), which the SQL text alone leaves open. -/
def orderByTimestampDesc (l : List AlertRecord) : List AlertRecord :=
  List.foldr insertTS [] l

/-- The query built by `read_alerts` before offset/limit (main.py lines 170-174):
order by timestamp descending, then filter by category only when the category
string is truthy, i.e. present and non-empty (`if category:`). -/
def matchingRecords (db : Database) (category : Option String) : List AlertRecord :=
  let query := orderByTimestampDesc db.rows
  match category with
  | some c => if c == "" then query else List.filter (fun r => r.category == c) query
  | none => query

/-- Embeds the endpoint `read_alerts` (main.py lines 152-177):
clamp the limit to 1000, build the ordered/filtered query, apply offset and limit. -/
def read_alerts (db : Database) (skip limit : Nat) (category : Option String) :
    List AlertRecord :=
  let limit := min limit 1000
  List.take limit (List.drop skip (matchingRecords db category))

/-- Embeds the endpoint `read_alert` (main.py lines 186-196): first row with the
given id, else 404. -/
def read_alert (db : Database) (alert_id : Nat) : Except ApiError AlertRecord :=
  match List.find? (fun r => r.id == alert_id) db.rows with
  | some a => Except.ok a
  | none => Except.error ApiError.notFound

/-- The row persisted by `create_alert`: the input fields plus the
auto-increment id and the server-assigned timestamp. -/
def newRecord (db : Database) (a : AlertCreate) (ts : Nat) : AlertRecord :=
  { id := db.nextId, title := a.title, description := a.description,
    category := a.category, latitude := a.latitude, longitude := a.longitude,
    bairro := a.bairro, timestamp := ts }

/-- Embeds the endpoint `create_alert` (main.py lines 204-221) together with the
pydantic validation that runs before it: an invalid body is rejected with 422 and
the handler never runs, so the database is unchanged; a valid body is persisted
with a fresh id and the server timestamp `ts`. -/
def create_alert (db : Database) (a : AlertCreate) (ts : Nat) :
    Except ApiError AlertRecord × Database :=
  if validAlertCreate a then
    (Except.ok (newRecord db a ts),
      { rows := db.rows ++ [newRecord db a ts], nextId := db.nextId + 1 })
  else
    (Except.error ApiError.validationError, db)

/-- Embeds the endpoint `delete_alert` (main.py lines 232-246): look up the first
row with the given id; 404 and no change when absent, otherwise remove that row. -/
def delete_alert (db : Database) (alert_id : Nat) : Except ApiError Unit × Database :=
  match List.find? (fun r => r.id == alert_id) db.rows with
  | none => (Except.error ApiError.notFound, db)
  | some _ =>
      (Except.ok (),
        { rows := List.eraseP (fun r => r.id == alert_id) db.rows, nextId := db.nextId })

/-- The two `between` clauses of `get_nearby_alerts` (main.py lines 272-274):
inclusive rectangular bounds on the raw coordinate values. -/
def inBoundingBox (latitude longitude degree_radius : ℚ) (r : AlertRecord) : Bool :=
  decide (latitude - degree_radius ≤ r.latitude) &&
  decide (r.latitude ≤ latitude + degree_radius) &&
  decide (longitude - degree_radius ≤ r.longitude) &&
  decide (r.longitude ≤ longitude + degree_radius)

/-- Embeds the endpoint `get_nearby_alerts` (main.py lines 257-277):
degree_radius = radius_km / 111.0, inclusive bounding-box filter, order by
timestamp descending, cap at 100 rows. -/
def get_nearby_alerts (db : Database) (latitude longitude radius_km : ℚ) :
    List AlertRecord :=
  let degree_radius := radius_km / 111
  List.take 100
    (orderByTimestampDesc
      (List.filter (inBoundingBox latitude longitude degree_radius) db.rows))

def sampleRec : AlertRecord :=
  { id := 1, title := "t", description := "d", category := "flood",
    latitude := 0, longitude := 0, bairro := "b", timestamp := 3 }

def sampleDb : Database := { rows := [sampleRec], nextId := 2 }

/-- Inputs used to instantiate the theorems at concrete values. -/
def okCreate : AlertCreate :=
  { title := "t", description := "d", category := "c",
    latitude := 0, longitude := 0, bairro := "b" }

/-- An input whose latitude violates the [-90, 90] constraint. -/
def badCreate : AlertCreate :=
  { title := "t", description := "d", category := "c",
    latitude := 200, longitude := 0, bairro := "b" }

/-- A record stored close to the antimeridian on the western side. -/
def wrapRec : AlertRecord :=
  { id := 2, title := "t2", description := "d2", category := "c2",
    latitude := 0, longitude := -179, bairro := "b2", timestamp := 5 }

/-- A one-row database holding `wrapRec`. -/
def wrapDb : Database := { rows := [wrapRec], nextId := 3 }

/-- Three records sharing all fields except id and timestamp, used to
instantiate the ordering claims. -/
def tsRec (i t : Nat) : AlertRecord :=
  { id := i, title := "t", description := "d", category := "c",
    latitude := 0, longitude := 0, bairro := "b", timestamp := t }

theorem insertTS_perm (a : AlertRecord) (l : List AlertRecord) :
    List.Perm (insertTS a l) (a :: l) := by
  induction l with
  | nil => exact List.Perm.refl _
  | cons b bs ih =>
    simp only [insertTS]
    split
    · exact (ih.cons b).trans (List.Perm.swap a b bs)
    · exact List.Perm.refl _

theorem mem_insertTS {x a : AlertRecord} {l : List AlertRecord} :
    x ∈ insertTS a l ↔ x = a ∨ x ∈ l := by
  rw [(insertTS_perm a l).mem_iff, List.mem_cons]

theorem orderByTimestampDesc_perm (l : List AlertRecord) :
    List.Perm (orderByTimestampDesc l) l := by
  induction l with
  | nil => exact List.Perm.refl _
  | cons a bs ih => exact (insertTS_perm a _).trans (ih.cons a)

theorem pairwise_insertTS {a : AlertRecord} {l : List AlertRecord}
    (h : List.Pairwise (fun x y => y.timestamp ≤ x.timestamp) l) :
    List.Pairwise (fun x y => y.timestamp ≤ x.timestamp) (insertTS a l) := by
  induction l with
  | nil => simp [insertTS]
  | cons b bs ih =>
    rcases List.pairwise_cons.1 h with ⟨hb, hbs⟩
    simp only [insertTS]
    split
    case isTrue hlt =>
      refine List.pairwise_cons.2 ⟨?_, ih hbs⟩
      intro x hx
      rcases mem_insertTS.1 hx with rfl | hx
      · exact le_of_lt hlt
      · exact hb x hx
    case isFalse hge =>
      refine List.pairwise_cons.2 ⟨?_, h⟩
      intro x hx
      rcases List.mem_cons.1 hx with rfl | hx
      · exact le_of_not_lt hge
      · exact le_trans (hb x hx) (le_of_not_lt hge)

theorem pairwise_orderByTimestampDesc (l : List AlertRecord) :
    List.Pairwise (fun x y => y.timestamp ≤ x.timestamp) (orderByTimestampDesc l) := by
  induction l with
  | nil => simp [orderByTimestampDesc]
  | cons a bs ih => exact pairwise_insertTS ih

theorem filter_insertTS_eq {a : AlertRecord} {t : Nat} (l : List AlertRecord)
    (ht : a.timestamp = t) :
    List.filter (fun r => r.timestamp == t) (insertTS a l) =
      a :: List.filter (fun r => r.timestamp == t) l := by
  induction l with
  | nil => simp [insertTS, ht]
  | cons b bs ih =>
    simp only [insertTS]
    split
    case isTrue hlt =>
      have hb : (b.timestamp == t) = false := by
        simp only [beq_eq_false_iff_ne, ne_eq]
        omega
      rw [List.filter_cons_of_neg (by simp [hb]), ih,
        List.filter_cons_of_neg (by simp [hb])]
    case isFalse hge =>
      rw [List.filter_cons_of_pos (by simp [ht])]

theorem filter_insertTS_ne {a : AlertRecord} {t : Nat} (l : List AlertRecord)
    (ht : a.timestamp ≠ t) :
    List.filter (fun r => r.timestamp == t) (insertTS a l) =
      List.filter (fun r => r.timestamp == t) l := by
  induction l with
  | nil => simp [insertTS, ht]
  | cons b bs ih =>
    simp only [insertTS]
    split
    case isTrue hlt =>
      rw [List.filter_cons]
      conv_rhs => rw [List.filter_cons]
      rw [ih]
    case isFalse hge =>
      rw [List.filter_cons_of_neg (by simp [ht])]

theorem filter_orderByTimestampDesc (l : List AlertRecord) (t : Nat) :
    List.filter (fun r => r.timestamp == t) (orderByTimestampDesc l) =
      List.filter (fun r => r.timestamp == t) l := by
  induction l with
  | nil => rfl
  | cons a bs ih =>
    show List.filter _ (insertTS a (orderByTimestampDesc bs)) = _
    by_cases ht : a.timestamp = t
    · rw [filter_insertTS_eq _ ht, ih, List.filter_cons_of_pos (by simp [ht])]
    · rw [filter_insertTS_ne _ ht, ih, List.filter_cons_of_neg (by simp [ht])]

theorem find?_append_right {p : AlertRecord → Bool} (l₁ l₂ : List AlertRecord)
    (h : ∀ x ∈ l₁, p x = false) :
    List.find? p (l₁ ++ l₂) = List.find? p l₂ := by
  induction l₁ with
  | nil => rfl
  | cons a l ih =>
    have ha := h a (List.mem_cons_self a l)
    simp only [List.cons_append, List.find?, ha]
    exact ih fun x hx => h x (List.mem_cons_of_mem a hx)

theorem read_alerts_sublist_matching (db : Database) (skip limit : Nat)
    (cat : Option String) :
    (read_alerts db skip limit cat).Sublist (matchingRecords db cat) :=
  (List.take_sublist _ _).trans (List.drop_sublist _ _)

theorem pairwise_matchingRecords (db : Database) (cat : Option String) :
    List.Pairwise (fun x y => y.timestamp ≤ x.timestamp) (matchingRecords db cat) := by
  have hq := pairwise_orderByTimestampDesc db.rows
  match cat with
  | none => exact hq
  | some c =>
    simp only [matchingRecords]
    split
    · exact hq
    · exact hq.filter _

/-- C5: List silently clamps any requested limit to the 1000 ceiling instead of
rejecting it: the result length never exceeds 1000 (nor the requested limit). -/
theorem read_alerts_limit_clamped (db : Database) (skip limit : Nat)
    (cat : Option String) :
    (read_alerts db skip limit cat).length ≤ 1000 ∧
    (read_alerts db skip limit cat).length ≤ limit := by
  have h : (read_alerts db skip limit cat).length ≤ min limit 1000 := by
    simp only [read_alerts]
    exact List.length_take_le _ _
  exact ⟨le_trans h (min_le_right _ _), le_trans h (min_le_left _ _)⟩

/-- C6: with a non-empty category string, List returns only records whose
category field exactly equals it (case-sensitive, no partial matching). -/
theorem read_alerts_category_exact (db : Database) (skip limit : Nat) (c : String)
    (hc : c ≠ "") :
    ∀ r ∈ read_alerts db skip limit (some c), r.category = c := by
  intro r hr
  have hr' : r ∈ matchingRecords db (some c) :=
    (read_alerts_sublist_matching db skip limit (some c)).subset hr
  have hcb : (c == "") = false := beq_eq_false_iff_ne.2 hc
  simp only [matchingRecords, hcb, Bool.false_eq_true, if_false] at hr'
  have := (List.mem_filter.1 hr').2
  simpa using this

/-- C6 witness at a concrete database and category. -/
theorem read_alerts_category_exact_witness :
    ("flood" : String) ≠ "" ∧ sampleRec.category = "flood" :=
  ⟨by decide,
    read_alerts_category_exact sampleDb 0 100 "flood" (by decide) sampleRec (by
      norm_num [read_alerts, matchingRecords, orderByTimestampDesc, insertTS,
        sampleDb, sampleRec])⟩

/-- C7: deleting a nonexistent id signals NotFound and leaves the stored record
set unchanged. -/
theorem delete_alert_nonexistent (db : Database) (alert_id : Nat)
    (h : ∀ r ∈ db.rows, r.id ≠ alert_id) :
    delete_alert db alert_id = (Except.error ApiError.notFound, db) := by
  have hf : List.find? (fun r => r.id == alert_id) db.rows = none := by
    rw [List.find?_eq_none]
    intro x hx
    simp [h x hx]
  simp [delete_alert, hf]

/-- C7 witness at a concrete database and absent id. -/
theorem delete_alert_nonexistent_witness :
    List.all sampleDb.rows (fun r => r.id != 99) = true ∧
    delete_alert sampleDb 99 = (Except.error ApiError.notFound, sampleDb) :=
  ⟨by decide, delete_alert_nonexistent sampleDb 99 (by decide)⟩

/-- C8: an offset at or past the end of the matching records yields the empty
list, never an error, and the result length never exceeds the clamped limit. -/
theorem read_alerts_skip_past_end (db : Database) (skip limit : Nat)
    (cat : Option String) (h : (matchingRecords db cat).length ≤ skip) :
    read_alerts db skip limit cat = [] ∧
    (read_alerts db skip limit cat).length ≤ min limit 1000 := by
  constructor
  · simp only [read_alerts, List.drop_eq_nil_of_le h, List.take_nil]
  · simp only [read_alerts]
    exact List.length_take_le _ _

/-- C8 witness at a concrete database and out-of-range offset. -/
theorem read_alerts_skip_past_end_witness :
    (matchingRecords sampleDb none).length ≤ 5 ∧
    read_alerts sampleDb 5 100 none = [] :=
  ⟨by decide, (read_alerts_skip_past_end sampleDb 5 100 none (by decide)).1⟩

/-- C9: an empty category string is falsy in `if category:`, so List with
category = "" behaves exactly as List with no category filter. -/
theorem read_alerts_empty_category (db : Database) (skip limit : Nat) :
    read_alerts db skip limit (some "") = read_alerts db skip limit none := by
  simp [read_alerts, matchingRecords]

/-- C2: List output is ordered by timestamp descending; the sort is stable, so
records with equal timestamps keep their insertion order; and three records
inserted at increasing timestamps t1 < t2 < t3 come back as t3, t2, t1. -/
theorem read_alerts_timestamp_desc_stable (db : Database) (skip limit : Nat)
    (cat : Option String) :
    List.Pairwise (fun a b => b.timestamp ≤ a.timestamp)
      (read_alerts db skip limit cat) ∧
    (∀ t, List.filter (fun r => r.timestamp == t) (orderByTimestampDesc db.rows) =
      List.filter (fun r => r.timestamp == t) db.rows) ∧
    (∀ r1 r2 r3 : AlertRecord, ∀ n : Nat,
      r1.timestamp < r2.timestamp → r2.timestamp < r3.timestamp →
      read_alerts { rows := [r1, r2, r3], nextId := n } 0 100 none = [r3, r2, r1]) := by
  refine ⟨?_, fun t => filter_orderByTimestampDesc db.rows t, ?_⟩
  · exact (pairwise_matchingRecords db cat).sublist
      (read_alerts_sublist_matching db skip limit cat)
  · intro r1 r2 r3 n h12 h23
    have h13 := lt_trans h12 h23
    simp [read_alerts, matchingRecords, orderByTimestampDesc, insertTS, h12, h23, h13]

/-- C2 witness: three concrete records at timestamps 1 < 2 < 3 come back
most-recent-first. -/
theorem read_alerts_timestamp_desc_stable_witness :
    read_alerts { rows := [tsRec 1 1, tsRec 2 2, tsRec 3 3], nextId := 4 } 0 100 none =
      [tsRec 3 3, tsRec 2 2, tsRec 1 1] :=
  (read_alerts_timestamp_desc_stable
      { rows := [tsRec 1 1, tsRec 2 2, tsRec 3 3], nextId := 4 } 0 100 none).2.2
    (tsRec 1 1) (tsRec 2 2) (tsRec 3 3) 4 (by decide) (by decide)

/-- C3: for a valid input, Create persists the input fields with the fresh id and
the server timestamp, and Read-by-id with that id returns exactly that record. -/
theorem create_alert_then_read (db : Database) (a : AlertCreate) (ts : Nat)
    (hvalid : validAlertCreate a = true)
    (hids : ∀ r ∈ db.rows, r.id < db.nextId) :
    (create_alert db a ts).1 = Except.ok (newRecord db a ts) ∧
    read_alert (create_alert db a ts).2 (newRecord db a ts).id =
      Except.ok (newRecord db a ts) ∧
    (newRecord db a ts).title = a.title ∧
    (newRecord db a ts).description = a.description ∧
    (newRecord db a ts).category = a.category ∧
    (newRecord db a ts).latitude = a.latitude ∧
    (newRecord db a ts).longitude = a.longitude ∧
    (newRecord db a ts).bairro = a.bairro ∧
    (newRecord db a ts).id = db.nextId ∧
    (newRecord db a ts).timestamp = ts := by
  have h2 : (create_alert db a ts).2 =
      { rows := db.rows ++ [newRecord db a ts], nextId := db.nextId + 1 } := by
    simp [create_alert, hvalid]
  have hall : ∀ x ∈ db.rows, (x.id == (newRecord db a ts).id) = false := by
    intro x hx
    have hlt := hids x hx
    simp only [newRecord, beq_eq_false_iff_ne, ne_eq]
    omega
  have hf : List.find? (fun r => r.id == (newRecord db a ts).id)
      (db.rows ++ [newRecord db a ts]) = some (newRecord db a ts) := by
    rw [find?_append_right _ _ hall]
    simp [List.find?]
  refine ⟨by simp [create_alert, hvalid], ?_, rfl, rfl, rfl, rfl, rfl, rfl, rfl, rfl⟩
  rw [h2]
  simp [read_alert, hf]

/-- C3 witness: creating a concrete valid alert in the empty database and reading
its id back returns the stored record. -/
theorem create_alert_then_read_witness :
    validAlertCreate okCreate = true ∧
    read_alert (create_alert { rows := [], nextId := 1 } okCreate 7).2
        (newRecord { rows := [], nextId := 1 } okCreate 7).id =
      Except.ok (newRecord { rows := [], nextId := 1 } okCreate 7) :=
  ⟨by norm_num [validAlertCreate, okCreate]; decide,
    (create_alert_then_read { rows := [], nextId := 1 } okCreate 7
      (by norm_num [validAlertCreate, okCreate]; decide) (by simp)).2.1⟩

/-- C4: an input with latitude out of [-90, 90], longitude out of [-180, 180], or
an empty or over-255-character title is rejected with a validation error and no
record is persisted, as observable by List. -/
theorem create_alert_invalid_rejected (db : Database) (a : AlertCreate) (ts : Nat)
    (hbad : a.latitude < -90 ∨ 90 < a.latitude ∨ a.longitude < -180 ∨
      180 < a.longitude ∨ a.title.length = 0 ∨ 255 < a.title.length) :
    (create_alert db a ts).1 = Except.error ApiError.validationError ∧
    (create_alert db a ts).2 = db ∧
    ∀ skip limit cat, read_alerts (create_alert db a ts).2 skip limit cat =
      read_alerts db skip limit cat := by
  have hv : validAlertCreate a = false := by
    rcases Bool.eq_false_or_eq_true (validAlertCreate a) with h | h
    swap
    · exact h
    · exfalso
      simp only [validAlertCreate, Bool.and_eq_true, decide_eq_true_eq] at h
      obtain ⟨⟨⟨⟨⟨⟨⟨h1, h2⟩, h3⟩, h4⟩, h5⟩, h6⟩, h7⟩, h8⟩ := h
      rcases hbad with h9 | h9 | h9 | h9 | h9 | h9
      · linarith
      · linarith
      · linarith
      · linarith
      · omega
      · omega
  refine ⟨?_, ?_, ?_⟩
  · simp [create_alert, hv]
  · simp [create_alert, hv]
  · intro skip limit cat
    simp [create_alert, hv]

/-- C4 witness: a concrete input with latitude 200 is rejected and List output is
unchanged. -/
theorem create_alert_invalid_rejected_witness :
    (create_alert sampleDb badCreate 0).1 = Except.error ApiError.validationError ∧
    read_alerts (create_alert sampleDb badCreate 0).2 0 100 none =
      read_alerts sampleDb 0 100 none :=
  ⟨(create_alert_invalid_rejected sampleDb badCreate 0
      (Or.inr (Or.inl (by norm_num [badCreate])))).1,
    (create_alert_invalid_rejected sampleDb badCreate 0
      (Or.inr (Or.inl (by norm_num [badCreate])))).2.2 0 100 none⟩

theorem mem_get_nearby_alerts {db : Database} {latitude longitude radius_km : ℚ}
    {r : AlertRecord} (hr : r ∈ get_nearby_alerts db latitude longitude radius_km) :
    r ∈ db.rows ∧
    latitude - radius_km / 111 ≤ r.latitude ∧
    r.latitude ≤ latitude + radius_km / 111 ∧
    longitude - radius_km / 111 ≤ r.longitude ∧
    r.longitude ≤ longitude + radius_km / 111 := by
  simp only [get_nearby_alerts] at hr
  have hr1 : r ∈ orderByTimestampDesc
      (List.filter (inBoundingBox latitude longitude (radius_km / 111)) db.rows) :=
    (List.take_sublist _ _).subset hr
  have hr2 := (orderByTimestampDesc_perm _).mem_iff.1 hr1
  have hr3 := List.mem_filter.1 hr2
  refine ⟨hr3.1, ?_⟩
  have hbox := hr3.2
  simp only [inBoundingBox, Bool.and_eq_true, decide_eq_true_eq] at hbox
  exact ⟨hbox.1.1.1, hbox.1.1.2, hbox.1.2, hbox.2⟩

/-- C1: for any radius in (0, 100], the proximity search returns exactly the
stored records inside the inclusive box of half-width radius_km / 111 degrees
around the centre (all of them when at most 100 match), ordered by timestamp
descending and capped at 100 results. -/
theorem get_nearby_alerts_box (db : Database) (latitude longitude radius_km : ℚ)
    (h1 : 0 < radius_km) (h2 : radius_km ≤ 100) :
    (∀ r ∈ get_nearby_alerts db latitude longitude radius_km,
      r ∈ db.rows ∧
      latitude - radius_km / 111 ≤ r.latitude ∧
      r.latitude ≤ latitude + radius_km / 111 ∧
      longitude - radius_km / 111 ≤ r.longitude ∧
      r.longitude ≤ longitude + radius_km / 111) ∧
    ((List.filter (inBoundingBox latitude longitude (radius_km / 111)) db.rows).length
        ≤ 100 →
      ∀ r ∈ db.rows,
        latitude - radius_km / 111 ≤ r.latitude →
        r.latitude ≤ latitude + radius_km / 111 →
        longitude - radius_km / 111 ≤ r.longitude →
        r.longitude ≤ longitude + radius_km / 111 →
        r ∈ get_nearby_alerts db latitude longitude radius_km) ∧
    List.Pairwise (fun a b => b.timestamp ≤ a.timestamp)
      (get_nearby_alerts db latitude longitude radius_km) ∧
    (get_nearby_alerts db latitude longitude radius_km).length =
      min 100
        (List.filter (inBoundingBox latitude longitude (radius_km / 111)) db.rows).length := by
  refine ⟨fun r hr => mem_get_nearby_alerts hr, ?_, ?_, ?_⟩
  · intro hlen r hrow hb1 hb2 hb3 hb4
    have hrf : r ∈ List.filter (inBoundingBox latitude longitude (radius_km / 111)) db.rows := by
      refine List.mem_filter.2 ⟨hrow, ?_⟩
      simp only [inBoundingBox, Bool.and_eq_true, decide_eq_true_eq]
      exact ⟨⟨⟨hb1, hb2⟩, hb3⟩, hb4⟩
    have hro := (orderByTimestampDesc_perm _).mem_iff.2 hrf
    have hlen' : (orderByTimestampDesc
        (List.filter (inBoundingBox latitude longitude (radius_km / 111)) db.rows)).length
        ≤ 100 := by
      rw [(orderByTimestampDesc_perm _).length_eq]
      exact hlen
    simp only [get_nearby_alerts]
    rw [List.take_of_length_le hlen']
    exact hro
  · simp only [get_nearby_alerts]
    exact (pairwise_orderByTimestampDesc _).sublist (List.take_sublist _ _)
  · simp only [get_nearby_alerts]
    rw [List.length_take, (orderByTimestampDesc_perm _).length_eq]

/-- C1 witness: with radius 5 km, a record stored at the search centre is
returned. -/
theorem get_nearby_alerts_box_witness :
    (0:ℚ) < 5 ∧ (5:ℚ) ≤ 100 ∧ sampleRec ∈ get_nearby_alerts sampleDb 0 0 5 :=
  ⟨by norm_num, by norm_num,
    (get_nearby_alerts_box sampleDb 0 0 5 (by norm_num) (by norm_num)).2.1
      (by norm_num [inBoundingBox, sampleDb, sampleRec, List.filter])
      sampleRec (by simp [sampleDb])
      (by norm_num [sampleRec]) (by norm_num [sampleRec])
      (by norm_num [sampleRec]) (by norm_num [sampleRec])⟩

/-- C10: the bounding box never wraps around the antimeridian: with any radius at
most 100 km, a search centred at longitude at least 179 can never return a record
stored at longitude at most -179, because membership is plain interval arithmetic
on the raw coordinates. -/
theorem get_nearby_alerts_no_wrap (db : Database) (latitude longitude radius_km : ℚ)
    (r : AlertRecord) (h1 : 0 < radius_km) (h2 : radius_km ≤ 100)
    (h3 : 179 ≤ longitude) (h4 : r.longitude ≤ -179) :
    r ∉ get_nearby_alerts db latitude longitude radius_km := by
  intro hr
  have hb := mem_get_nearby_alerts hr
  have hlow := hb.2.2.2.1
  linarith

/-- C10 witness: a record at longitude -179 is not returned by a 100 km search
centred at longitude 179, though it is about 222 km away across the antimeridian
only on paper coordinates 358 degrees apart. -/
theorem get_nearby_alerts_no_wrap_witness :
    (0:ℚ) < 100 ∧ (100:ℚ) ≤ 100 ∧ (179:ℚ) ≤ 179 ∧ wrapRec.longitude ≤ -179 ∧
    wrapRec ∉ get_nearby_alerts wrapDb 0 179 100 :=
  ⟨by norm_num, by norm_num, by norm_num, by norm_num [wrapRec],
    get_nearby_alerts_no_wrap wrapDb 0 179 100 wrapRec (by norm_num) (by norm_num)
      (by norm_num) (by norm_num [wrapRec])⟩
